import Mathlib

/-!
Shallow embedding of the Surface and Appbar components of this repository
(react-native-paper excerpt: src/components/Surface.tsx and the Appbar
component file) together with proofs of the specification claims.

Conventions of the embedding:
* Colors are opaque symbolic values (`Color`); the external `overlay` helper
  (src/styles/overlay, not present under src/) is modelled from the spec as a
  distinguished constructor.
* Style objects are bags of optional fields (`ViewStyle`); a React Native
  style array is flattened left-to-right, a later defined field winning
  (`mergeStyle` / `flattenList`).
* Numeric style values are rationals.
* `Animated.Value.interpolate` with input range [0,1,2,3,4,5] is modelled as
  piecewise-linear interpolation (`interp6`).
* Render trees are `Node` values.
-/

/-- Symbolic color values. `overlaid e c` is the result of the external
`overlay` helper. Modelled from the spec: overlay blends a translucent
white over the base surface color proportional to elevation (src/styles/overlay
is not under src/); the blend itself is opaque here. -/
inductive Color where
  | named (s : String)
  | overlaid (elevation : ℚ) (base : Color)
deriving DecidableEq

/-- Dark-mode presentation strategy of the theme (`theme.mode`). -/
inductive ThemeMode where
  | adaptive
  | exact
deriving DecidableEq

/-- The MD3 elevation color table of the theme (`theme.colors.elevation`),
one background color per elevation level 0..5. -/
structure ElevationColors where
  level0 : Color
  level1 : Color
  level2 : Color
  level3 : Color
  level4 : Color
  level5 : Color
deriving DecidableEq

/-- Look up `level${e}` in the elevation color table. -/
def elevationColorOf (ec : ElevationColors) (e : Fin 6) : Color :=
  [ec.level0, ec.level1, ec.level2, ec.level3, ec.level4, ec.level5].getD e.val ec.level0

/-- The fragment of the theme's color palette these components read. -/
structure ThemeColors where
  surface : Color
  primary : Color
  elevation : ElevationColors
deriving DecidableEq

/-- The fragment of the theme these components read: dark flag, presentation
mode, design-system version flag (`isV3`), colors. -/
structure Theme where
  dark : Bool
  mode : ThemeMode
  isV3 : Bool
  colors : ThemeColors
deriving DecidableEq

/-- The `flexDirection` values used by the Appbar styles. -/
inductive FlexDirection where
  | row
  | column
deriving DecidableEq

/-- Flattened React Native view style: every field optional, `none` meaning
the property is not set. Only the fields these components touch are kept. -/
structure ViewStyle where
  backgroundColor : Option Color := none
  margin : Option ℚ := none
  padding : Option ℚ := none
  transform : Option (List ℚ) := none
  borderRadius : Option ℚ := none
  elevation : Option ℚ := none
  shadowColor : Option Color := none
  shadowOpacity : Option ℚ := none
  shadowOffsetWidth : Option ℚ := none
  shadowOffsetHeight : Option ℚ := none
  shadowRadius : Option ℚ := none
  paddingTop : Option ℚ := none
  paddingHorizontal : Option ℚ := none
  flexDirection : Option FlexDirection := none
  flex : Option ℚ := none
  width : Option ℚ := none
  height : Option ℚ := none
deriving DecidableEq

/-- Field-level merge of two optional style entries: the later (second)
entry wins when it is set, as in `StyleSheet.flatten` of a style array. -/
def pick {α : Type} (a b : Option α) : Option α :=
  match b with
  | some v => some v
  | none => a

@[simp] theorem pick_none_right {α : Type} (a : Option α) : pick a none = a := rfl

@[simp] theorem pick_some {α : Type} (a : Option α) (v : α) : pick a (some v) = some v := rfl

@[simp] theorem pick_none_left {α : Type} (b : Option α) : pick none b = b := by
  cases b <;> rfl

@[simp] theorem pick_self {α : Type} (a : Option α) : pick a a = a := by
  cases a <;> rfl

/-- Merge two flattened styles, the second one later in the style array. -/
def mergeStyle (a b : ViewStyle) : ViewStyle where
  backgroundColor := pick a.backgroundColor b.backgroundColor
  margin := pick a.margin b.margin
  padding := pick a.padding b.padding
  transform := pick a.transform b.transform
  borderRadius := pick a.borderRadius b.borderRadius
  elevation := pick a.elevation b.elevation
  shadowColor := pick a.shadowColor b.shadowColor
  shadowOpacity := pick a.shadowOpacity b.shadowOpacity
  shadowOffsetWidth := pick a.shadowOffsetWidth b.shadowOffsetWidth
  shadowOffsetHeight := pick a.shadowOffsetHeight b.shadowOffsetHeight
  shadowRadius := pick a.shadowRadius b.shadowRadius
  paddingTop := pick a.paddingTop b.paddingTop
  paddingHorizontal := pick a.paddingHorizontal b.paddingHorizontal
  flexDirection := pick a.flexDirection b.flexDirection
  flex := pick a.flex b.flex
  width := pick a.width b.width
  height := pick a.height b.height

/-- Model of `StyleSheet.flatten` of a style array. -/
def flattenList (l : List ViewStyle) : ViewStyle :=
  l.foldl mergeStyle {}

/-- A render tree node: a (possibly animated) view with a flattened style
and child nodes. -/
inductive Node where
  | view (style : ViewStyle) (children : List Node)

/-- The flattened style of a node. -/
def Node.style : Node → ViewStyle
  | .view s _ => s

/-- The children of a node. -/
def Node.children : Node → List Node
  | .view _ c => c

/-! ## Surface (src/components/Surface.tsx) -/

/-- An elevation prop value: either a static MD3 elevation level 0..5 or an
animated value currently sampled at `x`. -/
inductive ElevationValue where
  | static (e : Fin 6)
  | animated (x : ℚ)
deriving DecidableEq

/-- The default applied at the `Surface` prop destructuring:
`elevation = 1`. -/
def surfaceEffectiveElevation (propElevation : Option ElevationValue) : ElevationValue :=
  propElevation.getD (.static 1)

/-- The default applied at the `MD2Surface` style destructuring:
`const { elevation = 4 } = (StyleSheet.flatten(style) || {})`. -/
def md2EffectiveElevation (style : Option ViewStyle) : ℚ :=
  ((style.getD {}).elevation).getD 4

/-- The external `overlay` helper. Modelled from the spec: on a dark adaptive
theme the surface color is adjusted by a semi-transparent overlay
proportional to the elevation (src/styles/overlay is not under src/). -/
def overlay (elevation : ℚ) (c : Color) : Color :=
  Color.overlaid elevation c

/-- The external `shadow` helper of the legacy path. Modelled from the spec:
a static shadow appropriate to the elevation value, touching only shadow
fields of the style (src/styles/shadow is not under src/); the concrete
numbers are representative. -/
def md2shadow (elevation : ℚ) : ViewStyle :=
  { shadowColor := some (Color.named "#000")
    shadowOpacity := some (24 / 100)
    shadowOffsetWidth := some 0
    shadowOffsetHeight := some elevation
    shadowRadius := some elevation }

/-- The background color computed by `MD2Surface`:
`isDarkTheme && mode === 'adaptive' ? overlay(elevation, colors.surface) : colors.surface`. -/
def md2BackgroundColor (t : Theme) (elevation : ℚ) : Color :=
  if t.dark = true ∧ t.mode = ThemeMode.adaptive then overlay elevation t.colors.surface
  else t.colors.surface

/-- The root style array of `MD2Surface`:
`[{ backgroundColor }, elevation ? shadow(elevation) : null, style]` flattened. -/
def md2RootStyle (t : Theme) (style : Option ViewStyle) : ViewStyle :=
  let elevation := md2EffectiveElevation style
  flattenList
    [{ backgroundColor := some (md2BackgroundColor t elevation) },
     if elevation ≠ 0 then md2shadow elevation else {},
     style.getD {}]

/-- The legacy `MD2Surface` render: a single view. -/
def md2Surface (t : Theme) (style : Option ViewStyle) (children : List Node) : Node :=
  Node.view (md2RootStyle t style) children

/-- The background color of the MD3 `Surface` for a static elevation:
`colors.elevation[`level${elevation}`]`. -/
def surfaceBackgroundColorV3 (t : Theme) (e : Fin 6) : Color :=
  elevationColorOf t.colors.elevation e

/-- The output range handed to `elevation.interpolate` for the background
color of an animated MD3 `Surface`:
`inputRange.map((elevation) => colors.elevation[`level${elevation}`])`. -/
def surfaceBgOutputRange (t : Theme) : List Color :=
  (List.finRange 6).map (fun e => elevationColorOf t.colors.elevation e)

/-- The two Android layer elevation tables of the MD3 `Surface`:
`[[0, 1, 2, 3, 3, 3], [0, 3, 4, 6, 8, 10]]`. -/
def elevationLevels (layer : Fin 2) : List ℚ :=
  [[0, 1, 2, 3, 3, 3], [0, 3, 4, 6, 8, 10]].getD layer.val []

/-- Model of `Animated.Value.interpolate` with `inputRange [0, 1, 2, 3, 4, 5]`:
piecewise-linear interpolation between consecutive knots. -/
def interp6 (out : List ℚ) (x : ℚ) : ℚ :=
  let i : ℕ :=
    if x < 1 then 0 else if x < 2 then 1 else if x < 3 then 2 else if x < 4 then 3 else 4
  let o0 := out.getD i 0
  let o1 := out.getD (i + 1) 0
  o0 + (x - (i : ℚ)) * (o1 - o0)

/-- The source's `getElevationAndroid(layer)` for a static elevation:
`elevationLevel[elevation]`. -/
def getElevationAndroid (layer : Fin 2) (e : Fin 6) : ℚ :=
  (elevationLevels layer).getD e.val 0

/-- The source's `getElevationAndroid(layer)` for an animated elevation sampled at `x`:
`elevation.interpolate({ inputRange, outputRange: elevationLevel })`. -/
def getElevationAndroidAnimated (layer : Fin 2) (x : ℚ) : ℚ :=
  interp6 (elevationLevels layer) x

/-- The outer layer style of the Android MD3 render:
`{ margin, padding, transform, borderRadius }` destructured from the
flattened style. -/
def outerLayerStyles (style : ViewStyle) : ViewStyle :=
  { margin := style.margin
    padding := style.padding
    transform := style.transform
    borderRadius := style.borderRadius }

/-- The source's `clearSpacing = { margin: 0, padding: 0 }`. -/
def clearSpacing : ViewStyle :=
  { margin := some 0, padding := some 0 }

/-- The flattened style of the outer Android view:
`[{ elevation: getElevationAndroid(0), backgroundColor }, outerLayerStyles]`. -/
def surfaceAndroidOuterStyle (t : Theme) (e : Fin 6) (style : ViewStyle) : ViewStyle :=
  flattenList
    [{ elevation := some (getElevationAndroid 0 e)
       backgroundColor := some (surfaceBackgroundColorV3 t e) },
     outerLayerStyles style]

/-- The flattened style of the inner Android view:
`[{ elevation: getElevationAndroid(1), borderRadius }, { backgroundColor }, style, clearSpacing]`
(the middle two entries being `sharedStyle`). -/
def surfaceAndroidInnerStyle (t : Theme) (e : Fin 6) (style : ViewStyle) : ViewStyle :=
  flattenList
    [{ elevation := some (getElevationAndroid 1 e), borderRadius := style.borderRadius },
     { backgroundColor := some (surfaceBackgroundColorV3 t e) },
     style,
     clearSpacing]

/-- The Android MD3 render: two nested views around the children. -/
def surfaceAndroidV3 (t : Theme) (e : Fin 6) (style : ViewStyle) (children : List Node) : Node :=
  Node.view (surfaceAndroidOuterStyle t e style)
    [Node.view (surfaceAndroidInnerStyle t e style) children]

/-- The iOS shadow output ranges of the MD3 `Surface`: per layer a fixed
`shadowOpacity` and elevation-indexed `height` and `shadowRadius` tables. -/
structure IOSShadowOutputRange where
  shadowOpacity : ℚ
  heightTable : List ℚ
  shadowRadiusTable : List ℚ
deriving DecidableEq

/-- The table `iOSShadowOutputRanges` from the source:
layer 0: opacity 0.15, heights [0,1,2,4,6,8], radii [0,3,6,8,10,12];
layer 1: opacity 0.3, heights [0,1,1,1,2,4], radii [0,1,2,3,3,4]. -/
def iOSShadowOutputRanges (layer : Fin 2) : IOSShadowOutputRange :=
  [{ shadowOpacity := 15 / 100
     heightTable := [0, 1, 2, 4, 6, 8]
     shadowRadiusTable := [0, 3, 6, 8, 10, 12] },
   { shadowOpacity := 3 / 10
     heightTable := [0, 1, 1, 1, 2, 4]
     shadowRadiusTable := [0, 1, 2, 3, 3, 4] }].getD layer.val
    { shadowOpacity := 0, heightTable := [], shadowRadiusTable := [] }

/-- The source's `getStyleForShadowLayer(layer)` for a static elevation. -/
def getStyleForShadowLayer (e : Fin 6) (layer : Fin 2) : ViewStyle :=
  { shadowColor := some (Color.named "#000")
    shadowOpacity := some (iOSShadowOutputRanges layer).shadowOpacity
    shadowOffsetWidth := some 0
    shadowOffsetHeight := some ((iOSShadowOutputRanges layer).heightTable.getD e.val 0)
    shadowRadius := some ((iOSShadowOutputRanges layer).shadowRadiusTable.getD e.val 0) }

/-- The source's `getStyleForAnimatedShadowLayer(layer)` for an animated elevation sampled
at `x`: heights and radii interpolated over input range [0,5]. -/
def getStyleForAnimatedShadowLayer (x : ℚ) (layer : Fin 2) : ViewStyle :=
  { shadowColor := some (Color.named "#000")
    shadowOpacity := some (iOSShadowOutputRanges layer).shadowOpacity
    shadowOffsetWidth := some 0
    shadowOffsetHeight := some (interp6 (iOSShadowOutputRanges layer).heightTable x)
    shadowRadius := some (interp6 (iOSShadowOutputRanges layer).shadowRadiusTable x) }

/-- The source's `sharedStyle`, the array `[{ backgroundColor }, style]`, flattened. -/
def surfaceSharedStyle (t : Theme) (e : Fin 6) (style : ViewStyle) : ViewStyle :=
  flattenList [{ backgroundColor := some (surfaceBackgroundColorV3 t e) }, style]

/-- The iOS MD3 render for a static elevation: two shadow wrapper views
around the content view. -/
def surfaceIOSV3 (t : Theme) (e : Fin 6) (style : ViewStyle) (children : List Node) : Node :=
  Node.view (getStyleForShadowLayer e 0)
    [Node.view (getStyleForShadowLayer e 1)
      [Node.view (surfaceSharedStyle t e style) children]]

/-- Platform identity. -/
inductive OS where
  | android
  | ios
deriving DecidableEq

/-- The `Surface` render for a static elevation prop: legacy themes go to
`MD2Surface`, MD3 themes branch on the platform. The `elevation` prop
defaults to 1, as in `surfaceEffectiveElevation`; the legacy path ignores
the prop and reads the elevation from the flattened style. The animated
paths are modelled by `getElevationAndroidAnimated`,
`getStyleForAnimatedShadowLayer` and `surfaceBgOutputRange`. -/
def surfaceStaticRender (os : OS) (t : Theme) (propElevation : Option (Fin 6))
    (style : ViewStyle) (children : List Node) : Node :=
  let e : Fin 6 := propElevation.getD 1
  if t.isV3 = false then md2Surface t (some style) children
  else
    match os with
    | .android => surfaceAndroidV3 t e style children
    | .ios => surfaceIOSV3 t e style children

/-! ## Appbar (src/components/Appbar/Appbar.tsx) -/

/-- The component type of an Appbar child, as identified by the
`child.type` identity checks. `other` is any valid element of a different
component type. -/
inductive ChildType where
  | backAction
  | action
  | content
  | other
deriving DecidableEq

/-- An Appbar child: whether it is a valid React element, its component
type, and its `isLeading` prop (used by `filterAppbarActions`). -/
structure Child where
  valid : Bool := true
  type : ChildType
  isLeading : Bool := false
deriving DecidableEq

/-- The in-order `React.Children.forEach` scan: tracks whether an
`AppbarContent` child has been seen, counting valid children before it as
left items and valid children after it as right items. Returns
`(hasAppbarContent, leftItemsCount, rightItemsCount)`. -/
def classifyChildren (children : List Child) : Bool × ℕ × ℕ :=
  children.foldl
    (fun acc child =>
      let (hasAppbarContent, leftItemsCount, rightItemsCount) := acc
      if child.valid = true then
        if child.type = ChildType.content then (true, leftItemsCount, rightItemsCount)
        else if hasAppbarContent = true then
          (hasAppbarContent, leftItemsCount, rightItemsCount + 1)
        else (hasAppbarContent, leftItemsCount + 1, rightItemsCount)
      else acc)
    (false, 0, 0)

/-- The centering flags
`(shouldCenterContent, shouldAddLeftSpacing, shouldAddRightSpacing)`:
all false off iOS; on iOS computed from the child scan, only in the legacy
design version. -/
def centeringFlags (os : OS) (isV3 : Bool) (children : List Child) : Bool × Bool × Bool :=
  match os with
  | .android => (false, false, false)
  | .ios =>
    let (hasAppbarContent, leftItemsCount, rightItemsCount) := classifyChildren children
    let shouldCenterContent :=
      !isV3 && hasAppbarContent && decide (leftItemsCount < 2) && decide (rightItemsCount < 2)
    (shouldCenterContent,
     !isV3 && shouldCenterContent && decide (leftItemsCount = 0),
     !isV3 && shouldCenterContent && decide (rightItemsCount = 0))

/-- The Appbar `mode` prop. -/
inductive AppbarMode where
  | small
  | medium
  | large
  | centerAligned
deriving DecidableEq

/-- The source's `isMode(modeToCompare)`: `isV3 && mode === modeToCompare`. -/
def isMode (isV3 : Bool) (mode modeToCompare : AppbarMode) : Bool :=
  isV3 && decide (mode = modeToCompare)

/-- The possibly-animated background color value the Appbar works with:
a string color, a non-string animated node, or undefined. -/
inductive CValue where
  | str (s : String)
  | animatedNode
  | undef
deriving DecidableEq

/-- The Appbar `isDark` resolution: an explicit `dark` boolean wins;
otherwise `'transparent'` resolves to false, another string by the external
luminance test (`!color(backgroundColor).isLight()`, passed in as
`isLight`), and any non-string value to true. -/
def appbarIsDark (dark : Option Bool) (backgroundColor : CValue)
    (isLight : String → Bool) : Bool :=
  match dark with
  | some d => d
  | none =>
    if backgroundColor = CValue.str "transparent" then false
    else
      match backgroundColor with
      | .str s => !isLight s
      | _ => true

/-- The style `styles.columnContainer`. -/
def stylesColumnContainer : ViewStyle :=
  { flexDirection := some FlexDirection.column, flex := some 1, paddingTop := some 8 }

/-- The style `styles.centerAlignedContainer`. -/
def stylesCenterAlignedContainer : ViewStyle :=
  { paddingTop := some 0 }

/-- The style `styles.spacing`. -/
def stylesSpacing : ViewStyle :=
  { width := some 48 }

/-- An item of the rendered bar, in order: a fixed-width spacer, the legacy
single-row content (carrying the resolved `isDark` and centering flag), or
the two-row column container of the MD3 modes (carrying its flattened style
and whether its content row is centered). -/
inductive BarItem where
  | spacer
  | singleRow (isDark : Bool) (shouldCenterContent : Bool)
  | columnLayout (style : ViewStyle) (contentCentered : Bool)
deriving DecidableEq

/-- Whether a bar item is the two-row column container. -/
def BarItem.isColumnLayout : BarItem → Bool
  | .columnLayout _ _ => true
  | _ => false

/-- The column container and its style, when one is rendered:
`[styles.columnContainer, isMode('center-aligned') && styles.centerAlignedContainer]`,
with the content row centered exactly for `center-aligned`. -/
def appbarColumnItems (isV3 : Bool) (mode : AppbarMode) : List BarItem :=
  if (isMode isV3 mode .medium || isMode isV3 mode .large
      || isMode isV3 mode .centerAligned) = true then
    [BarItem.columnLayout
      (flattenList
        [stylesColumnContainer,
         if isMode isV3 mode .centerAligned = true then stylesCenterAlignedContainer else {}])
      (isMode isV3 mode .centerAligned = true)]
  else []

/-- The legacy / `small`-mode single content row, when one is rendered:
`(!isV3 || isMode('small')) && renderAppbarContent(...)`. -/
def appbarSingleRowItems (isV3 : Bool) (mode : AppbarMode) (isDark : Bool)
    (shouldCenterContent : Bool) : List BarItem :=
  if (!isV3 || isMode isV3 mode .small) = true then
    [BarItem.singleRow isDark shouldCenterContent]
  else []

/-- The ordered items rendered inside the Appbar's Surface wrapper:
optional left spacer, legacy single row, MD3 column container, optional
right spacer. `backgroundColor` is the value of the external
`getAppbarColor` (not under src/), `isLight` the external luminance test. -/
def appbarItems (os : OS) (isV3 : Bool) (mode : AppbarMode) (dark : Option Bool)
    (backgroundColor : CValue) (isLight : String → Bool)
    (children : List Child) : List BarItem :=
  let flags := centeringFlags os isV3 children
  let isDark := appbarIsDark dark backgroundColor isLight
  (if flags.2.1 = true then [BarItem.spacer] else [])
    ++ appbarSingleRowItems isV3 mode isDark flags.1
    ++ appbarColumnItems isV3 mode
    ++ (if flags.2.2 = true then [BarItem.spacer] else [])

/-- The column items among the rendered bar items. -/
def columnLayoutsOf (items : List BarItem) : List BarItem :=
  items.filter (fun i => i.isColumnLayout = true)

/-! ## Sample inputs used for concrete evaluations -/

/-- A concrete MD3 theme for concrete evaluations. -/
def sampleTheme : Theme :=
  { dark := false
    mode := .exact
    isV3 := true
    colors :=
      { surface := .named "surface"
        primary := .named "primary"
        elevation :=
          { level0 := .named "e0", level1 := .named "e1", level2 := .named "e2"
            level3 := .named "e3", level4 := .named "e4", level5 := .named "e5" } } }

/-- A `Content` child. -/
def contentChild : Child := { type := .content }

/-- A `BackAction` child. -/
def backActionChild : Child := { type := .backAction }

/-- An `Action` child. -/
def actionChild : Child := { type := .action }

/-! ## Helper lemmas -/

theorem columnLayoutsOf_append (xs ys : List BarItem) :
    columnLayoutsOf (xs ++ ys) = columnLayoutsOf xs ++ columnLayoutsOf ys := by
  simp [columnLayoutsOf, List.filter_append]

theorem columnLayoutsOf_spacer_if (b : Bool) :
    columnLayoutsOf (if b = true then [BarItem.spacer] else []) = [] := by
  cases b <;> rfl

theorem columnLayoutsOf_singleRow (isV3 : Bool) (mode : AppbarMode)
    (isDark shouldCenterContent : Bool) :
    columnLayoutsOf (appbarSingleRowItems isV3 mode isDark shouldCenterContent) = [] := by
  unfold appbarSingleRowItems
  split <;> rfl

theorem columnLayoutsOf_columnItems (isV3 : Bool) (mode : AppbarMode) :
    columnLayoutsOf (appbarColumnItems isV3 mode) = appbarColumnItems isV3 mode := by
  unfold appbarColumnItems
  split <;> rfl

/-! ## Claim theorems -/

/-- C4: on iOS in the legacy design version, with children exactly
`[Content]`, the centering flag is true and both a left and a right spacer
are injected into the rendered bar. -/
theorem appbar_single_content_centered_with_spacers :
    centeringFlags OS.ios false [contentChild] = (true, true, true)
    ∧ appbarItems OS.ios false AppbarMode.small (some false) (CValue.str "#6200ee")
        (fun _ => false) [contentChild]
      = [BarItem.spacer, BarItem.singleRow false true, BarItem.spacer] := by
  decide

/-- C5: on iOS in legacy mode, with children
`[BackAction, Content, Action, Action]`, the in-order scan finds the content,
counts 1 leading and 2 trailing items, and the centering flag is false. -/
theorem appbar_two_trailing_not_centered :
    classifyChildren [backActionChild, contentChild, actionChild, actionChild] = (true, 1, 2)
    ∧ (centeringFlags OS.ios false
        [backActionChild, contentChild, actionChild, actionChild]).1 = false := by
  decide

/-- C6: an unspecified `Surface` elevation defaults to 1 in the current
design version and, read from the flattened style, to 4 in the legacy
version; with no elevation prop the static render uses level 1 on the MD3
path. -/
theorem surface_elevation_defaults :
    surfaceEffectiveElevation none = ElevationValue.static 1
    ∧ md2EffectiveElevation none = 4
    ∧ md2EffectiveElevation (some {}) = 4
    ∧ ∀ (t : Theme) (style : ViewStyle) (children : List Node),
        surfaceStaticRender OS.android t none style children
          = (if t.isV3 = false then md2Surface t (some style) children
             else surfaceAndroidV3 t 1 style children) :=
  ⟨rfl, rfl, rfl, fun _ _ _ => rfl⟩

/-- C7: an explicit `dark` boolean always decides `isDark`, regardless of the
luminance test; with `dark` undefined, a `'transparent'` background resolves
`isDark` to false. -/
theorem appbar_isDark_explicit_and_transparent :
    (∀ (d : Bool) (bg : CValue) (isLight : String → Bool),
        appbarIsDark (some d) bg isLight = d)
    ∧ (∀ isLight : String → Bool,
        appbarIsDark none (CValue.str "transparent") isLight = false) :=
  ⟨fun _ _ _ => rfl, fun _ => by simp [appbarIsDark]⟩

/-- C10: with `dark` undefined and a non-string background color (an
animated node or undefined), `isDark` resolves to true without consulting
the luminance test. -/
theorem appbar_isDark_nonstring_true :
    (∀ isLight : String → Bool, appbarIsDark none CValue.animatedNode isLight = true)
    ∧ (∀ isLight : String → Bool, appbarIsDark none CValue.undef isLight = true) :=
  ⟨fun _ => rfl, fun _ => rfl⟩

/-- C1 counterexample: with a style carrying `borderRadius: 5` and a
transform, the inner Android container does not have border radius or
transform zeroed out — the border radius is re-applied on the inner layer
and the transform passes through `sharedStyle`. -/
theorem surface_android_inner_not_all_zeroed :
    (surfaceAndroidInnerStyle sampleTheme 2
        { borderRadius := some 5, transform := some [2] }).borderRadius = some 5
    ∧ (surfaceAndroidInnerStyle sampleTheme 2
        { borderRadius := some 5, transform := some [2] }).transform = some [2]
    ∧ ¬ ((surfaceAndroidInnerStyle sampleTheme 2
          { borderRadius := some 5, transform := some [2] }).borderRadius = some 0
        ∨ (surfaceAndroidInnerStyle sampleTheme 2
            { borderRadius := some 5, transform := some [2] }).borderRadius = none) := by
  decide

/-- C1 (amended): for every style, the outer Android container carries the
margin, padding, transform and border radius of the flattened style, while
the inner container zeroes out only margin and padding; the border radius is
re-applied on the inner container and the transform is inherited from the
style there as well. -/
theorem surface_android_layer_styles (t : Theme) (e : Fin 6) (style : ViewStyle)
    (children : List Node) :
    (surfaceAndroidOuterStyle t e style).margin = style.margin
    ∧ (surfaceAndroidOuterStyle t e style).padding = style.padding
    ∧ (surfaceAndroidOuterStyle t e style).transform = style.transform
    ∧ (surfaceAndroidOuterStyle t e style).borderRadius = style.borderRadius
    ∧ (surfaceAndroidInnerStyle t e style).margin = some 0
    ∧ (surfaceAndroidInnerStyle t e style).padding = some 0
    ∧ (surfaceAndroidInnerStyle t e style).transform = style.transform
    ∧ (surfaceAndroidInnerStyle t e style).borderRadius = style.borderRadius
    ∧ surfaceAndroidV3 t e style children
        = Node.view (surfaceAndroidOuterStyle t e style)
            [Node.view (surfaceAndroidInnerStyle t e style) children] := by
  refine ⟨?_, ?_, ?_, ?_, ?_, ?_, ?_, ?_, rfl⟩ <;>
    simp [surfaceAndroidOuterStyle, surfaceAndroidInnerStyle, flattenList,
      mergeStyle, outerLayerStyles, clearSpacing]

/-- C2: for every static elevation `e` in [0,5], the MD3 `Surface` background
color (on the outer and inner Android layers and on the iOS content view)
equals the theme's elevation table entry for level `e`; the legacy
`MD2Surface` background color equals the overlay-adjusted surface color
exactly on a dark adaptive theme and the plain surface color otherwise; both
computations are idempotent across repeated calls with identical inputs,
and the render dispatches to these layers by design version. -/
theorem surface_background_color_consistent (os : OS) (t : Theme) (e : Fin 6)
    (style : ViewStyle) (children : List Node)
    (hbg : style.backgroundColor = none)
    (hel : style.elevation = some ((e.val : ℚ))) :
    (surfaceAndroidOuterStyle t e style).backgroundColor
        = some (elevationColorOf t.colors.elevation e)
    ∧ (surfaceAndroidInnerStyle t e style).backgroundColor
        = some (elevationColorOf t.colors.elevation e)
    ∧ (surfaceSharedStyle t e style).backgroundColor
        = some (elevationColorOf t.colors.elevation e)
    ∧ (md2RootStyle t (some style)).backgroundColor
        = some (if t.dark = true ∧ t.mode = ThemeMode.adaptive
                then overlay ((e.val : ℚ)) t.colors.surface
                else t.colors.surface)
    ∧ (t.isV3 = false →
        surfaceStaticRender os t (some e) style children = md2Surface t (some style) children)
    ∧ (t.isV3 = true →
        surfaceStaticRender OS.android t (some e) style children
            = surfaceAndroidV3 t e style children
        ∧ surfaceStaticRender OS.ios t (some e) style children
            = surfaceIOSV3 t e style children)
    ∧ surfaceBackgroundColorV3 t e = surfaceBackgroundColorV3 t e
    ∧ md2BackgroundColor t ((e.val : ℚ)) = md2BackgroundColor t ((e.val : ℚ)) := by
  refine ⟨?_, ?_, ?_, ?_, ?_, ?_, rfl, rfl⟩
  · simp [surfaceAndroidOuterStyle, flattenList, mergeStyle, outerLayerStyles,
      surfaceBackgroundColorV3]
  · simp [surfaceAndroidInnerStyle, flattenList, mergeStyle, clearSpacing,
      surfaceBackgroundColorV3, hbg]
  · simp [surfaceSharedStyle, flattenList, mergeStyle, surfaceBackgroundColorV3, hbg]
  · have hev : md2EffectiveElevation (some style) = ((e.val : ℚ)) := by
      simp [md2EffectiveElevation, hel]
    simp only [md2RootStyle, hev]
    split
    · simp [flattenList, mergeStyle, md2shadow, hbg, md2BackgroundColor]
    · simp [flattenList, mergeStyle, hbg, md2BackgroundColor]
  · intro h
    simp [surfaceStaticRender, h]
  · intro h
    constructor <;> simp [surfaceStaticRender, h]

/-- Witness for C2 at a concrete theme, elevation 2 and a style with no
background color and elevation 2. -/
theorem surface_background_color_consistent_witness :
    ({ elevation := some ((2 : ℚ)) } : ViewStyle).backgroundColor = none
    ∧ (surfaceAndroidInnerStyle sampleTheme 2 { elevation := some ((2 : ℚ)) }).backgroundColor
        = some (Color.named "e2") :=
  ⟨rfl,
    (surface_background_color_consistent OS.android sampleTheme 2
        { elevation := some ((2 : ℚ)) } [] rfl rfl).2.1⟩

/-- C3: the animated outputs of `Surface` — both Android layer elevations
and both iOS shadow heights and radii, each interpolated over input range
[0,5] — agree with the corresponding static table lookups at every integer
point 0..5, and the animated background color output range agrees with the
static elevation-table lookup at every integer point. -/
theorem surface_interpolation_matches_static :
    (∀ (layer : Fin 2) (i : Fin 6),
        getElevationAndroidAnimated layer ((i.val : ℚ)) = getElevationAndroid layer i
        ∧ (getStyleForAnimatedShadowLayer ((i.val : ℚ)) layer).shadowOffsetHeight
            = (getStyleForShadowLayer i layer).shadowOffsetHeight
        ∧ (getStyleForAnimatedShadowLayer ((i.val : ℚ)) layer).shadowRadius
            = (getStyleForShadowLayer i layer).shadowRadius)
    ∧ (∀ (t : Theme) (i : Fin 6),
        (surfaceBgOutputRange t).getD i.val (Color.named "")
          = elevationColorOf t.colors.elevation i) := by
  constructor
  · intro layer i
    fin_cases layer <;> fin_cases i <;>
      norm_num [getElevationAndroidAnimated, getElevationAndroid, interp6, elevationLevels,
        getStyleForAnimatedShadowLayer, getStyleForShadowLayer, iOSShadowOutputRanges]
  · intro t i
    fin_cases i <;> rfl

/-- C8: in the current design version with mode `center-aligned`, the bar
renders exactly one column container, styled with the centered-container
variant whose merged `paddingTop` is 0 instead of the column container's
default 8, and its content row is centered. -/
theorem appbar_center_aligned_container (os : OS) (dark : Option Bool)
    (bg : CValue) (isLight : String → Bool) (children : List Child) :
    columnLayoutsOf (appbarItems os true AppbarMode.centerAligned dark bg isLight children)
      = [BarItem.columnLayout
          (flattenList [stylesColumnContainer, stylesCenterAlignedContainer]) true]
    ∧ (flattenList [stylesColumnContainer, stylesCenterAlignedContainer]).paddingTop = some 0
    ∧ stylesColumnContainer.paddingTop = some 8 := by
  refine ⟨?_, rfl, rfl⟩
  simp only [appbarItems, columnLayoutsOf_append, columnLayoutsOf_spacer_if,
    columnLayoutsOf_singleRow, columnLayoutsOf_columnItems, List.nil_append, List.append_nil]
  rfl

/-- C9: for every platform, design version, mode, children and remaining
props, the two-row column container is rendered exactly when the current
design version is active and the mode is medium, large or center-aligned;
in particular mode `small` and every legacy Appbar never get it. -/
theorem appbar_column_layout_iff (os : OS) (isV3 : Bool) (mode : AppbarMode)
    (dark : Option Bool) (bg : CValue) (isLight : String → Bool)
    (children : List Child) :
    columnLayoutsOf (appbarItems os isV3 mode dark bg isLight children) ≠ []
      ↔ isV3 = true
        ∧ (mode = AppbarMode.medium ∨ mode = AppbarMode.large
            ∨ mode = AppbarMode.centerAligned) := by
  simp only [appbarItems, columnLayoutsOf_append, columnLayoutsOf_spacer_if,
    columnLayoutsOf_singleRow, columnLayoutsOf_columnItems, List.nil_append, List.append_nil]
  cases isV3 <;> cases mode <;> simp [appbarColumnItems, isMode]
